import Mathlib

/-!
Verification of the NearLink conversation/message subsystem.

The development shallowly embeds the subsystem's data model and operations:
- the `conversations` and `messages` tables and their row-level-security
  policies from the migration that adds the messaging system;
- `getOrCreateConversation` from the conversation helper module;
- `fetchMessages` and `handleSendMessage` from the chat screen.

Opaque identifiers (user ids, conversation ids, message ids, listing and
request ids) are modelled as `Nat`; timestamps as `Nat`; nullable columns as
`Option`. The shared relational store is a record of the two table contents
plus id counters; the store's `DEFAULT now()` columns are modelled by an
explicit `now` argument to each operation that inserts or updates rows.
-/

/-- Row of the `conversations` table:
`(id PK, participant_1_id, participant_2_id, listing_id NULL, request_id NULL,
last_message_at, created_at)`. -/
structure Conversation where
  id : Nat
  participant_1_id : Nat
  participant_2_id : Nat
  listing_id : Option Nat
  request_id : Option Nat
  last_message_at : Nat
  created_at : Nat
deriving DecidableEq, Repr

/-- Row of the `messages` table:
`(id PK, conversation_id FK, sender_id, content NOT NULL, created_at,
read_at NULL)`. -/
structure Message where
  id : Nat
  conversation_id : Nat
  sender_id : Nat
  content : String
  created_at : Nat
  read_at : Option Nat
deriving DecidableEq, Repr

/-- The shared relational store: contents of the two tables plus counters
standing for the store's `gen_random_uuid()` id generation (fresh ids are
taken from the counters). -/
structure Store where
  convs : List Conversation
  msgs : List Message
  nextConvId : Nat
  nextMsgId : Nat
deriving DecidableEq, Repr

/-- Error outcomes surfaced by store operations: a backend/store error
(query or insert failure, surfaced by the source as a thrown error) or a
rejection by a row-level-security policy. -/
inductive DbError where
  | storeFailure
  | forbidden
deriving DecidableEq, Repr

/-- The filter built by the lookup in `getOrCreateConversation`:
`.eq('participant_1_id', userId).eq('participant_2_id', otherUserId)` always,
then `.eq('listing_id', listingId)` only when `listingId` is present, and
`.eq('request_id', requestId)` only when `requestId` is present (the source
guards each with `if (listingId)` / `if (requestId)`, so an absent ref adds
no condition at all). -/
def matchesQuery (userId otherUserId : Nat) (listingId requestId : Option Nat)
    (c : Conversation) : Bool :=
  c.participant_1_id == userId && c.participant_2_id == otherUserId &&
    (match listingId with
     | some l => c.listing_id == some l
     | none => true) &&
    (match requestId with
     | some r => c.request_id == some r
     | none => true)

/-- Embedding of `getOrCreateConversation(userId, otherUserId, listingId?,
requestId?)`: run the lookup built by `matchesQuery` with `.maybeSingle()`
(which yields the row when exactly one matches, `null` when none does, and
an error when several do), return the existing row's id when found, and
otherwise insert a new row with `participant_1_id = userId`,
`participant_2_id = otherUserId`, `listing_id = listingId || null`,
`request_id = requestId || null` and the timestamp defaults, returning the
new id. Errors are rethrown to the caller. -/
def getOrCreateConversation (s : Store) (now : Nat) (userId otherUserId : Nat)
    (listingId requestId : Option Nat) : Except DbError (Nat × Store) :=
  match s.convs.filter (matchesQuery userId otherUserId listingId requestId) with
  | [] =>
      let c : Conversation :=
        { id := s.nextConvId
          participant_1_id := userId
          participant_2_id := otherUserId
          listing_id := listingId
          request_id := requestId
          last_message_at := now
          created_at := now }
      Except.ok (c.id, { s with convs := s.convs ++ [c], nextConvId := s.nextConvId + 1 })
  | [c] => Except.ok (c.id, s)
  | _ :: _ :: _ => Except.error DbError.storeFailure

/-- Policy `"Conversation participants can view messages"` (SELECT on
`messages`): `EXISTS (SELECT 1 FROM conversations WHERE conversations.id =
messages.conversation_id AND (participant_1_id = auth.uid() OR
participant_2_id = auth.uid()))`. -/
def canSelectMessage (uid : Nat) (s : Store) (m : Message) : Bool :=
  s.convs.any (fun c =>
    c.id == m.conversation_id &&
      (c.participant_1_id == uid || c.participant_2_id == uid))

/-- Policy `"Authenticated users can send messages"` (INSERT on `messages`):
`WITH CHECK (auth.uid() = sender_id)`. It consults nothing but the new row's
`sender_id`. -/
def canInsertMessage (uid : Nat) (m : Message) : Bool :=
  uid == m.sender_id

/-- Policy `"Recipients can update read_at timestamp"` (UPDATE on
`messages`), whose `USING` and `WITH CHECK` clauses are both
`EXISTS (SELECT 1 FROM conversations WHERE conversations.id =
messages.conversation_id AND conversations.participant_2_id = auth.uid())`. -/
def canUpdateMessage (uid : Nat) (s : Store) (m : Message) : Bool :=
  s.convs.any (fun c =>
    c.id == m.conversation_id && c.participant_2_id == uid)

/-- An UPDATE of a message row passes row-level security when the existing
row passes the policy's `USING` clause and the updated row passes its
`WITH CHECK` clause. -/
def updateMessageAllowed (uid : Nat) (s : Store) (oldRow newRow : Message) : Bool :=
  canUpdateMessage uid s oldRow && canUpdateMessage uid s newRow

/-- An INSERT into `messages` under row-level security: the row is stored
when the INSERT policy's `WITH CHECK` accepts it and the insert is rejected
as forbidden otherwise. -/
def insertMessageRLS (uid : Nat) (s : Store) (m : Message) : Except DbError Store :=
  if canInsertMessage uid m then
    Except.ok { s with msgs := s.msgs ++ [m] }
  else
    Except.error DbError.forbidden

/-- Embedding of the chat screen's message query in `fetchMessages`:
`.from('messages').select('*').eq('conversation_id', id)
.order('created_at', { ascending: false })` — all rows of the conversation,
sorted by `created_at` descending. The sort is realised by insertion sort
under the relation "later or equal `created_at` comes first". -/
def fetchMessages (s : Store) (convId : Nat) : List Message :=
  List.insertionSort (fun a b => b.created_at ≤ a.created_at)
    (s.msgs.filter (fun m => m.conversation_id == convId))

/-- The row built by the insert in `handleSendMessage`:
`{ conversation_id: id, sender_id: user?.id, content: text }`, with
`created_at` defaulted to insertion time and `read_at` defaulted to null by
the schema. -/
def mkSentMessage (s : Store) (uid convId : Nat) (text : String) (now : Nat) :
    Message :=
  { id := s.nextMsgId
    conversation_id := convId
    sender_id := uid
    content := text
    created_at := now
    read_at := none }

/-- The chat screen's follow-up write after a successful insert:
`.from('conversations').update({ last_message_at: ... }).eq('id', id)`. -/
def bumpLastMessageAt (s : Store) (convId now : Nat) : Store :=
  { s with
    convs := s.convs.map (fun c =>
      if c.id == convId then { c with last_message_at := now } else c) }

/-- Embedding of `handleSendMessage` from the chat screen: first `await` an
insert of one message row (on error the function throws — modelled as
`DbError.storeFailure` — and nothing is stored); only after the insert
succeeds, a second separate `await` updates the parent conversation's
`last_message_at`, and the source never reads that second call's error, so
its failure changes nothing and the send still returns the inserted message.
The two Booleans are the outcomes of the two independent backend calls. -/
def handleSendMessage (s : Store) (uid convId : Nat) (text : String) (now : Nat)
    (insertSucceeds updateSucceeds : Bool) : Except DbError (Message × Store) :=
  if insertSucceeds then
    let m : Message := mkSentMessage s uid convId text now
    let s1 : Store := { s with msgs := s.msgs ++ [m], nextMsgId := s.nextMsgId + 1 }
    if updateSucceeds then
      Except.ok (m, bumpLastMessageAt s1 convId now)
    else
      Except.ok (m, s1)
  else
    Except.error DbError.storeFailure

/-- The store with both tables empty. -/
def emptyStore : Store :=
  { convs := [], msgs := [], nextConvId := 0, nextMsgId := 0 }

/-- A stored conversation between users 1 and 2 scoped to listing 5. -/
def convAB5 : Conversation :=
  { id := 0, participant_1_id := 1, participant_2_id := 2,
    listing_id := some 5, request_id := none,
    last_message_at := 0, created_at := 0 }

/-- A store holding only `convAB5`. -/
def storeAB5 : Store :=
  { convs := [convAB5], msgs := [], nextConvId := 1, nextMsgId := 0 }

/-- The conversation created when user 2 then contacts user 1 about the same
listing on top of `storeAB5`. -/
def convBA5 : Conversation :=
  { id := 1, participant_1_id := 2, participant_2_id := 1,
    listing_id := some 5, request_id := none,
    last_message_at := 0, created_at := 0 }

/-- The store after both directed resolutions about listing 5. -/
def storeBA5 : Store :=
  { convs := [convAB5, convBA5], msgs := [], nextConvId := 2, nextMsgId := 0 }

/-- C3, counterexample: on a store whose only conversation between users 1
and 2 carries `listing_id = some 5`, a call of `getOrCreateConversation`
with both refs absent returns exactly that conversation (id 0), whose
`listing_id` is not null — because the source skips the `listing_id` and
`request_id` filters entirely when the arguments are absent, instead of
requiring the columns to be null. This refutes the stated lookup condition
and its "in particular" consequence. -/
theorem getOrCreate_absent_ref_matches_nonnull_row :
    getOrCreateConversation storeAB5 7 1 2 none none = Except.ok (0, storeAB5) ∧
    convAB5.id = 0 ∧ convAB5.listing_id = some 5 ∧ convAB5.listing_id ≠ none := by
  exact ⟨rfl, rfl, rfl, by decide⟩

/-- C3, amended: the existing-conversation lookup matches a stored
conversation exactly when `participant_1_id` equals `user_id`,
`participant_2_id` equals `other_user_id`, and each ref column equals the
given ref when one is given; when a ref is absent no condition at all is
placed on that column (it is not required to be null), so a call with both
refs absent matches any conversation with that ordered participant pair. -/
theorem matchesQuery_characterization (A B : Nat) (L R : Option Nat)
    (c : Conversation) :
    matchesQuery A B L R c = true ↔
      (c.participant_1_id = A ∧ c.participant_2_id = B ∧
        (L = none ∨ c.listing_id = L) ∧ (R = none ∨ c.request_id = R)) := by
  cases L <;> cases R <;> simp [matchesQuery, and_assoc]

/-- C4: the resolver's lookup is not symmetric in the participant pair.
Starting from the empty store, `getOrCreateConversation` for `(1, 2,
listing 5)` creates conversation 0; the subsequent call for the swapped
pair `(2, 1, listing 5)` does not match conversation 0 (the filter compares
the pair only in the given order) and creates a distinct conversation 1, so
the two calls return two distinct conversation ids. -/
theorem getOrCreate_asymmetric_pair :
    getOrCreateConversation emptyStore 0 1 2 (some 5) none =
      Except.ok (0, storeAB5) ∧
    getOrCreateConversation storeAB5 0 2 1 (some 5) none =
      Except.ok (1, storeBA5) ∧
    (0 : Nat) ≠ 1 ∧
    matchesQuery 2 1 (some 5) none convAB5 = false ∧
    matchesQuery 1 2 (some 5) none convBA5 = false := by
  exact ⟨rfl, rfl, by decide, rfl, rfl⟩

/-- A conversation between users 1 and 2 with no associated item. -/
def convC2 : Conversation :=
  { id := 0, participant_1_id := 1, participant_2_id := 2,
    listing_id := none, request_id := none,
    last_message_at := 0, created_at := 0 }

/-- A store holding only `convC2`. -/
def storeC2 : Store :=
  { convs := [convC2], msgs := [], nextConvId := 1, nextMsgId := 0 }

/-- A message inserted into conversation 0 by user 3, who is not one of the
conversation's participants. -/
def outsiderMsg : Message :=
  { id := 0, conversation_id := 0, sender_id := 3, content := "hi",
    created_at := 1, read_at := none }

/-- C2, counterexample: user 3 is not a participant of conversation 0
(participants 1 and 2), yet the INSERT policy on `messages` accepts user 3's
message into that conversation, because the policy's `WITH CHECK` is only
`auth.uid() = sender_id` and never consults conversation membership. The
insert succeeds instead of being rejected with `Forbidden`, and the
resulting store state contains a message whose sender is not a participant
of its owning conversation. -/
theorem sendByNonParticipantAccepted :
    insertMessageRLS 3 storeC2 outsiderMsg =
      Except.ok { storeC2 with msgs := [outsiderMsg] } ∧
    outsiderMsg.conversation_id = convC2.id ∧
    outsiderMsg.sender_id ≠ convC2.participant_1_id ∧
    outsiderMsg.sender_id ≠ convC2.participant_2_id := by
  exact ⟨rfl, rfl, by decide, by decide⟩

/-- C2, amended: the message INSERT policy admits an insert exactly when the
authenticated caller equals the new row's `sender_id`, regardless of the
conversation's participants (the store contents are never consulted); an
insert whose `sender_id` differs from the caller is rejected as forbidden.
Conversation membership of the sender is therefore not enforced by the
policy layer. -/
theorem insertMessagePolicy_sender_only (uid : Nat) (s : Store) (m : Message) :
    (insertMessageRLS uid s m = Except.ok { s with msgs := s.msgs ++ [m] } ↔
      uid = m.sender_id) ∧
    (insertMessageRLS uid s m = Except.error DbError.forbidden ↔
      uid ≠ m.sender_id) := by
  unfold insertMessageRLS canInsertMessage
  by_cases h : uid = m.sender_id <;> simp [h]

/-- A row that carries exactly the queried tuple: ordered participant pair
plus both ref columns equal to the given optional values. -/
def exactTuple (A B : Nat) (L R : Option Nat) (c : Conversation) : Bool :=
  c.participant_1_id == A && c.participant_2_id == B &&
    c.listing_id == L && c.request_id == R

/-- The row that `getOrCreateConversation` inserts on a lookup miss passes
the lookup filter for the same arguments. -/
theorem matchesQuery_inserted (A B idv t : Nat) (L R : Option Nat) :
    matchesQuery A B L R
      { id := idv, participant_1_id := A, participant_2_id := B,
        listing_id := L, request_id := R,
        last_message_at := t, created_at := t } = true := by
  cases L <;> cases R <;> simp [matchesQuery]

/-- A row carrying exactly the queried tuple passes the lookup filter. -/
theorem matchesQuery_of_exactTuple (A B : Nat) (L R : Option Nat)
    (c : Conversation) (h : exactTuple A B L R c = true) :
    matchesQuery A B L R c = true := by
  simp only [exactTuple, Bool.and_eq_true, beq_iff_eq] at h
  obtain ⟨⟨⟨h1, h2⟩, h3⟩, h4⟩ := h
  cases L <;> cases R <;> simp [matchesQuery, h1, h2, h3, h4]

/-- C1: resolution is idempotent for a fixed ordered tuple. If a call of
`getOrCreateConversation` for `(A, B, L, R)` returns conversation id `cid`
with resulting store `s1`, then an immediately repeated call for the same
tuple (at any later time `t2`) returns the same id `cid` and leaves the
store unchanged, and in `s1` exactly one stored conversation matches the
resolver's lookup for that tuple — in particular at most one row carries
exactly that tuple, so no duplicate row is ever created for it. -/
theorem getOrCreate_idempotent (s : Store) (t1 t2 A B : Nat) (L R : Option Nat)
    (cid : Nat) (s1 : Store)
    (h : getOrCreateConversation s t1 A B L R = Except.ok (cid, s1)) :
    getOrCreateConversation s1 t2 A B L R = Except.ok (cid, s1) ∧
    (s1.convs.filter (matchesQuery A B L R)).length = 1 ∧
    (s1.convs.filter (exactTuple A B L R)).length ≤ 1 := by
  have hmono : ∀ l : List Conversation,
      (l.filter (exactTuple A B L R)).length ≤
        (l.filter (matchesQuery A B L R)).length := fun l =>
    (List.monotone_filter_right l
      (fun c hc => matchesQuery_of_exactTuple A B L R c hc)).length_le
  unfold getOrCreateConversation at h
  cases hf : s.convs.filter (matchesQuery A B L R) with
  | nil =>
      rw [hf] at h
      simp only [Except.ok.injEq, Prod.mk.injEq] at h
      obtain ⟨hcid, hs1⟩ := h
      subst hcid
      subst hs1
      have hfilter :
          (s.convs ++
            [({ id := s.nextConvId, participant_1_id := A,
                participant_2_id := B, listing_id := L, request_id := R,
                last_message_at := t1, created_at := t1 } : Conversation)]).filter
            (matchesQuery A B L R) =
          [({ id := s.nextConvId, participant_1_id := A,
              participant_2_id := B, listing_id := L, request_id := R,
              last_message_at := t1, created_at := t1 } : Conversation)] := by
        rw [List.filter_append, hf]
        simp [matchesQuery_inserted]
      refine ⟨?_, ?_, ?_⟩
      · unfold getOrCreateConversation
        rw [hfilter]
      · rw [hfilter]
        rfl
      · exact le_trans (hmono _) (le_of_eq (by rw [hfilter]; rfl))
  | cons c tail =>
      cases tail with
      | nil =>
          rw [hf] at h
          simp only [Except.ok.injEq, Prod.mk.injEq] at h
          obtain ⟨hcid, hs1⟩ := h
          subst hcid
          subst hs1
          refine ⟨?_, ?_, ?_⟩
          · unfold getOrCreateConversation
            rw [hf]
          · simp [hf]
          · exact le_trans (hmono _) (le_of_eq (by simp [hf]))
      | cons d tail2 =>
          rw [hf] at h
          exact absurd h (by simp)

/-- The conversation created by resolving `(1, 2)` with no refs on the empty
store. -/
def convDirect12 : Conversation :=
  { id := 0, participant_1_id := 1, participant_2_id := 2,
    listing_id := none, request_id := none,
    last_message_at := 0, created_at := 0 }

/-- The store after that first resolution. -/
def storeDirect12 : Store :=
  { convs := [convDirect12], msgs := [], nextConvId := 1, nextMsgId := 0 }

/-- Witness for C1: concrete double resolution of `(1, 2, null, null)` from
the empty store. -/
theorem getOrCreate_idempotent_witness :
    getOrCreateConversation storeDirect12 9 1 2 none none =
      Except.ok (0, storeDirect12) ∧
    (storeDirect12.convs.filter (matchesQuery 1 2 none none)).length = 1 ∧
    (storeDirect12.convs.filter (exactTuple 1 2 none none)).length ≤ 1 :=
  getOrCreate_idempotent emptyStore 0 9 1 2 none none 0 storeDirect12 rfl

/-- C8: per-item isolation. From a store holding no conversation matching
either tuple, resolving `(A, B, L1, null)` and then `(A, B, L2, null)` with
`L1 ≠ L2` creates two distinct conversation rows with distinct ids — the
second lookup does not match the first row because its `listing_id` filter
compares `L2` against the stored `L1`. -/
theorem getOrCreate_per_item_isolation (s : Store) (t1 t2 A B L1 L2 : Nat)
    (hL : L1 ≠ L2)
    (h1 : s.convs.filter (matchesQuery A B (some L1) none) = [])
    (h2 : s.convs.filter (matchesQuery A B (some L2) none) = []) :
    ∃ (s1 s2 : Store) (c1 c2 : Conversation),
      getOrCreateConversation s t1 A B (some L1) none =
        Except.ok (c1.id, s1) ∧
      getOrCreateConversation s1 t2 A B (some L2) none =
        Except.ok (c2.id, s2) ∧
      c1.id ≠ c2.id ∧ c1 ≠ c2 ∧
      c1 ∈ s2.convs ∧ c2 ∈ s2.convs ∧
      c1.listing_id = some L1 ∧ c2.listing_id = some L2 := by
  have hc1 : matchesQuery A B (some L2) none
      ({ id := s.nextConvId, participant_1_id := A, participant_2_id := B,
         listing_id := some L1, request_id := none,
         last_message_at := t1, created_at := t1 } : Conversation) = false := by
    simp [matchesQuery, hL]
  refine ⟨{ s with
      convs := s.convs ++
        [({ id := s.nextConvId, participant_1_id := A, participant_2_id := B,
            listing_id := some L1, request_id := none,
            last_message_at := t1, created_at := t1 } : Conversation)]
      nextConvId := s.nextConvId + 1 },
    { s with
      convs := (s.convs ++
        [({ id := s.nextConvId, participant_1_id := A, participant_2_id := B,
            listing_id := some L1, request_id := none,
            last_message_at := t1, created_at := t1 } : Conversation)]) ++
        [({ id := s.nextConvId + 1, participant_1_id := A,
            participant_2_id := B, listing_id := some L2, request_id := none,
            last_message_at := t2, created_at := t2 } : Conversation)]
      nextConvId := s.nextConvId + 1 + 1 },
    ({ id := s.nextConvId, participant_1_id := A, participant_2_id := B,
       listing_id := some L1, request_id := none,
       last_message_at := t1, created_at := t1 } : Conversation),
    ({ id := s.nextConvId + 1, participant_1_id := A, participant_2_id := B,
       listing_id := some L2, request_id := none,
       last_message_at := t2, created_at := t2 } : Conversation),
    ?_, ?_, ?_, ?_, ?_, ?_, ?_, ?_⟩
  · unfold getOrCreateConversation
    rw [h1]
  · unfold getOrCreateConversation
    simp [List.filter_append, h2, hc1]
  · show s.nextConvId ≠ s.nextConvId + 1
    omega
  · intro h
    have hid := congrArg Conversation.id h
    exact absurd hid (by show s.nextConvId ≠ s.nextConvId + 1; omega)
  · simp
  · simp
  · rfl
  · rfl

/-- Witness for C8: concrete runs for listings 5 and 6 from the empty
store. -/
theorem getOrCreate_per_item_isolation_witness :
    ∃ (s1 s2 : Store) (c1 c2 : Conversation),
      getOrCreateConversation emptyStore 0 1 2 (some 5) none =
        Except.ok (c1.id, s1) ∧
      getOrCreateConversation s1 0 1 2 (some 6) none =
        Except.ok (c2.id, s2) ∧
      c1.id ≠ c2.id ∧ c1 ≠ c2 ∧
      c1 ∈ s2.convs ∧ c2 ∈ s2.convs ∧
      c1.listing_id = some 5 ∧ c2.listing_id = some 6 :=
  getOrCreate_per_item_isolation emptyStore 0 0 1 2 5 6 (by decide) rfl rfl

/-- In a store whose conversation ids are pairwise distinct (the `id` column
is the primary key), two stored conversations with the same id are the same
row. -/
theorem conv_eq_of_id_eq (s : Store)
    (hids : (s.convs.map (fun c => c.id)).Nodup)
    (c d : Conversation) (hc : c ∈ s.convs) (hd : d ∈ s.convs)
    (h : c.id = d.id) : c = d :=
  List.inj_on_of_nodup_map hids hc hd h

/-- Characterisation of the UPDATE policy on `messages`: with distinct
conversation ids, a caller passes the policy for a message of conversation
`c` exactly when the caller is `c`'s `participant_2_id`. -/
theorem canUpdateMessage_iff (uid : Nat) (s : Store) (c : Conversation)
    (m : Message) (hids : (s.convs.map (fun c => c.id)).Nodup)
    (hc : c ∈ s.convs) (hm : m.conversation_id = c.id) :
    canUpdateMessage uid s m = true ↔ uid = c.participant_2_id := by
  unfold canUpdateMessage
  rw [List.any_eq_true]
  constructor
  · rintro ⟨d, hd, hcond⟩
    rw [Bool.and_eq_true, beq_iff_eq, beq_iff_eq] at hcond
    obtain ⟨hdid, hdp2⟩ := hcond
    have hdc : d = c := conv_eq_of_id_eq s hids d c hd hc (by rw [hdid, hm])
    rw [← hdc]
    exact hdp2.symm
  · intro h
    refine ⟨c, hc, ?_⟩
    rw [Bool.and_eq_true, beq_iff_eq, beq_iff_eq]
    exact ⟨hm.symm, h.symm⟩

/-- Characterisation of the SELECT policy on `messages`: with distinct
conversation ids, a caller passes the policy for a message of conversation
`c` exactly when the caller is one of `c`'s two participants. -/
theorem canSelectMessage_iff (uid : Nat) (s : Store) (c : Conversation)
    (m : Message) (hids : (s.convs.map (fun c => c.id)).Nodup)
    (hc : c ∈ s.convs) (hm : m.conversation_id = c.id) :
    canSelectMessage uid s m = true ↔
      (uid = c.participant_1_id ∨ uid = c.participant_2_id) := by
  unfold canSelectMessage
  rw [List.any_eq_true]
  constructor
  · rintro ⟨d, hd, hcond⟩
    rw [Bool.and_eq_true, Bool.or_eq_true, beq_iff_eq, beq_iff_eq,
      beq_iff_eq] at hcond
    obtain ⟨hdid, hdp⟩ := hcond
    have hdc : d = c := conv_eq_of_id_eq s hids d c hd hc (by rw [hdid, hm])
    rw [← hdc]
    rcases hdp with h1 | h2
    · exact Or.inl h1.symm
    · exact Or.inr h2.symm
  · intro h
    refine ⟨c, hc, ?_⟩
    rw [Bool.and_eq_true, Bool.or_eq_true, beq_iff_eq, beq_iff_eq, beq_iff_eq]
    rcases h with h1 | h2
    · exact ⟨hm.symm, Or.inl h1.symm⟩
    · exact ⟨hm.symm, Or.inr h2.symm⟩

/-- C5: the read-marking rule is asymmetric by stored position. For a
message of a conversation with `participant_1_id = U1` and
`participant_2_id = U2`, the UPDATE policy that guards setting `read_at`
admits a caller exactly when the caller is `participant_2_id` — so `U2`'s
mark-read passes and `U1`'s fails, whatever the message's sender (the
policy never inspects `sender_id`), assuming the store's conversation ids
are distinct as the primary key guarantees. -/
theorem markReadPolicy_only_participant2 (uid : Nat) (s : Store)
    (c : Conversation) (m : Message)
    (hids : (s.convs.map (fun c => c.id)).Nodup)
    (hc : c ∈ s.convs) (hm : m.conversation_id = c.id) :
    canUpdateMessage uid s m = true ↔ uid = c.participant_2_id :=
  canUpdateMessage_iff uid s c m hids hc hm

/-- A message of conversation 0 sent by user 2, the conversation's
`participant_2_id`. -/
def msgFromP2 : Message :=
  { id := 0, conversation_id := 0, sender_id := 2, content := "hello",
    created_at := 1, read_at := none }

/-- A store with conversation 0 between users 1 and 2 and the message
`msgFromP2`. -/
def storeRead : Store :=
  { convs := [convC2], msgs := [msgFromP2], nextConvId := 1, nextMsgId := 1 }

/-- Witness for C5: for a message sent by participant 2 to participant 1,
participant 1 (the recipient) is denied by the update policy while
participant 2 (the sender) is admitted. -/
theorem markReadPolicy_only_participant2_witness :
    (canUpdateMessage 1 storeRead msgFromP2 = true ↔ 1 = 2) ∧
    (canUpdateMessage 2 storeRead msgFromP2 = true ↔ 2 = 2) :=
  ⟨markReadPolicy_only_participant2 1 storeRead convC2 msgFromP2
      (by decide) (by decide) rfl,
    markReadPolicy_only_participant2 2 storeRead convC2 msgFromP2
      (by decide) (by decide) rfl⟩

/-- C6: the SELECT policy on messages admits a caller exactly when the
caller is `participant_1_id` or `participant_2_id` of the message's owning
conversation (with distinct conversation ids, as the primary key
guarantees); any other caller can read no message of that conversation. -/
theorem messageSelectPolicy_iff_participant (uid : Nat) (s : Store)
    (c : Conversation) (m : Message)
    (hids : (s.convs.map (fun c => c.id)).Nodup)
    (hc : c ∈ s.convs) (hm : m.conversation_id = c.id) :
    canSelectMessage uid s m = true ↔
      (uid = c.participant_1_id ∨ uid = c.participant_2_id) :=
  canSelectMessage_iff uid s c m hids hc hm

/-- Witness for C6: both participants of conversation 0 pass the SELECT
policy for its message, and outsider 3 does not. -/
theorem messageSelectPolicy_iff_participant_witness :
    (canSelectMessage 1 storeRead msgFromP2 = true ↔ (1 = 1 ∨ 1 = 2)) ∧
    (canSelectMessage 3 storeRead msgFromP2 = true ↔ (3 = 1 ∨ 3 = 2)) :=
  ⟨messageSelectPolicy_iff_participant 1 storeRead convC2 msgFromP2
      (by decide) (by decide) rfl,
    messageSelectPolicy_iff_participant 3 storeRead convC2 msgFromP2
      (by decide) (by decide) rfl⟩

/-- C10: the UPDATE policy restricts neither the target message nor the
columns changed. For any stored message of conversation `c` and any
replacement row that stays in the same conversation — whatever its
`content`, `sender_id` or `read_at`, including a rewrite of the other
participant's message text or marking the caller's own sent message read —
the full row-level check (`USING` on the old row plus `WITH CHECK` on the
new row) passes exactly when the caller is `c`'s `participant_2_id`; every
other caller is denied. Conversation ids are assumed distinct as the
primary key guarantees. -/
theorem updatePolicy_unrestricted_for_participant2 (uid : Nat) (s : Store)
    (c : Conversation) (oldRow newRow : Message)
    (hids : (s.convs.map (fun c => c.id)).Nodup)
    (hc : c ∈ s.convs) (hold : oldRow.conversation_id = c.id)
    (hnew : newRow.conversation_id = c.id) :
    updateMessageAllowed uid s oldRow newRow = true ↔
      uid = c.participant_2_id := by
  unfold updateMessageAllowed
  rw [Bool.and_eq_true, canUpdateMessage_iff uid s c oldRow hids hc hold,
    canUpdateMessage_iff uid s c newRow hids hc hnew, and_self]

/-- A message of conversation 0 sent by participant 1. -/
def msgFromP1 : Message :=
  { id := 1, conversation_id := 0, sender_id := 1, content := "original",
    created_at := 2, read_at := none }

/-- The same row with its content rewritten and `read_at` set — an update
that changes far more than `read_at`. -/
def msgFromP1Edited : Message :=
  { id := 1, conversation_id := 0, sender_id := 1, content := "rewritten",
    created_at := 2, read_at := some 9 }

/-- `msgFromP2` marked read — participant 2 marking its own sent message. -/
def msgFromP2Read : Message :=
  { id := 0, conversation_id := 0, sender_id := 2, content := "hello",
    created_at := 1, read_at := some 9 }

/-- Witness for C10: participant 2 may rewrite participant 1's message
content and may mark its own sent message read, while participant 1 is
denied the same content rewrite. -/
theorem updatePolicy_unrestricted_for_participant2_witness :
    (updateMessageAllowed 2 storeRead msgFromP1 msgFromP1Edited = true ↔
      2 = 2) ∧
    (updateMessageAllowed 2 storeRead msgFromP2 msgFromP2Read = true ↔
      2 = 2) ∧
    (updateMessageAllowed 1 storeRead msgFromP1 msgFromP1Edited = true ↔
      1 = 2) :=
  ⟨updatePolicy_unrestricted_for_participant2 2 storeRead convC2 msgFromP1
      msgFromP1Edited (by decide) (by decide) rfl rfl,
    updatePolicy_unrestricted_for_participant2 2 storeRead convC2 msgFromP2
      msgFromP2Read (by decide) (by decide) rfl rfl,
    updatePolicy_unrestricted_for_participant2 1 storeRead convC2 msgFromP1
      msgFromP1Edited (by decide) (by decide) rfl rfl⟩

/-- Conversation 7 between users 1 and 2, used for the list-ordering
example. -/
def chatConv : Conversation :=
  { id := 7, participant_1_id := 1, participant_2_id := 2,
    listing_id := none, request_id := none,
    last_message_at := 0, created_at := 0 }

/-- Message "a" of conversation 7, inserted at time 1. -/
def msgT1 : Message :=
  { id := 0, conversation_id := 7, sender_id := 1, content := "a",
    created_at := 1, read_at := none }

/-- Message "b" of conversation 7, inserted at time 2. -/
def msgT2 : Message :=
  { id := 1, conversation_id := 7, sender_id := 2, content := "b",
    created_at := 2, read_at := none }

/-- Message "c" of conversation 7, inserted at time 3. -/
def msgT3 : Message :=
  { id := 2, conversation_id := 7, sender_id := 1, content := "c",
    created_at := 3, read_at := none }

/-- A message of a different conversation, stored between the others. -/
def msgOther : Message :=
  { id := 3, conversation_id := 8, sender_id := 4, content := "x",
    created_at := 4, read_at := none }

/-- A store holding conversation 7's three messages (and one foreign
message) in insertion order. -/
def chatStore : Store :=
  { convs := [chatConv], msgs := [msgT1, msgT2, msgOther, msgT3],
    nextConvId := 9, nextMsgId := 4 }

/-- C7: `fetchMessages` returns exactly the conversation's messages
(a permutation of the rows whose `conversation_id` matches) in descending
`created_at` order (newest first); concretely, for messages inserted at
times 1 < 2 < 3 it returns them as `[msgT3, msgT2, msgT1]`. -/
theorem fetchMessages_newest_first (s : Store) (convId : Nat) :
    (fetchMessages s convId).Perm
      (s.msgs.filter (fun m => m.conversation_id == convId)) ∧
    List.Sorted (fun a b : Message => b.created_at ≤ a.created_at)
      (fetchMessages s convId) ∧
    fetchMessages chatStore 7 = [msgT3, msgT2, msgT1] := by
  refine ⟨List.perm_insertionSort _ _, ?_, ?_⟩
  · haveI : IsTotal Message (fun a b => b.created_at ≤ a.created_at) :=
      ⟨fun a b => Nat.le_total b.created_at a.created_at⟩
    haveI : IsTrans Message (fun a b => b.created_at ≤ a.created_at) :=
      ⟨fun a b c hab hbc => Nat.le_trans hbc hab⟩
    exact List.sorted_insertionSort _ _
  · rfl

/-- C9: the send flow is a two-step write. With a successful insert, the
send returns the inserted message — whose `read_at` is null and whose
`created_at` is the insertion time — and the message is stored whether or
not the separate follow-up `last_message_at` update succeeds (its failure
is not fatal and rolls nothing back: the resulting store still holds the
message appended and the conversations untouched). A failing insert is
surfaced as a store failure and nothing is written. -/
theorem handleSendMessage_two_step (s : Store) (uid convId : Nat)
    (text : String) (now : Nat) (uOk : Bool) :
    (∃ st : Store,
        handleSendMessage s uid convId text now true uOk =
          Except.ok (mkSentMessage s uid convId text now, st) ∧
        mkSentMessage s uid convId text now ∈ st.msgs) ∧
    (mkSentMessage s uid convId text now).read_at = none ∧
    (mkSentMessage s uid convId text now).created_at = now ∧
    (bumpLastMessageAt
        { s with msgs := s.msgs ++ [mkSentMessage s uid convId text now],
                 nextMsgId := s.nextMsgId + 1 } convId now).msgs =
      s.msgs ++ [mkSentMessage s uid convId text now] ∧
    handleSendMessage s uid convId text now true false =
      Except.ok (mkSentMessage s uid convId text now,
        { s with msgs := s.msgs ++ [mkSentMessage s uid convId text now],
                 nextMsgId := s.nextMsgId + 1 }) ∧
    handleSendMessage s uid convId text now false uOk =
      Except.error DbError.storeFailure := by
  refine ⟨?_, rfl, rfl, rfl, rfl, rfl⟩
  cases uOk with
  | false => exact ⟨_, rfl, by simp⟩
  | true => exact ⟨_, rfl, by simp [bumpLastMessageAt]⟩

/-- Witness for the amended C2: concrete evaluation of both directions of
the sender-only characterisation at user 3's insert. -/
theorem insertMessagePolicy_sender_only_witness :
    (insertMessageRLS 3 storeC2 outsiderMsg =
        Except.ok { storeC2 with msgs := storeC2.msgs ++ [outsiderMsg] } ↔
      3 = outsiderMsg.sender_id) ∧
    (insertMessageRLS 3 storeC2 outsiderMsg = Except.error DbError.forbidden ↔
      3 ≠ outsiderMsg.sender_id) :=
  insertMessagePolicy_sender_only 3 storeC2 outsiderMsg

/-- Witness for the amended C3: concrete evaluation of the lookup
characterisation on the stale listing-scoped row with both refs absent. -/
theorem matchesQuery_characterization_witness :
    matchesQuery 1 2 none none convAB5 = true ↔
      (convAB5.participant_1_id = 1 ∧ convAB5.participant_2_id = 2 ∧
        ((none : Option Nat) = none ∨ convAB5.listing_id = none) ∧
        ((none : Option Nat) = none ∨ convAB5.request_id = none)) :=
  matchesQuery_characterization 1 2 none none convAB5
